import Mathlib

/-!
Shallow embedding of the player-performance enrichment pipeline of
`src/espn_fantasy_fetcher.py` (class `ESPNFantasyDataFetcher`).

Modelling conventions:
  * Python floats are modelled as rationals (`ℚ`); `round(x, 2)` is modelled by
    `round2` below (two-decimal rounding; no statement below depends on the
    tie-breaking rule).
  * Python dicts are modelled as association lists with first-binding lookup
    (`alookup`) and in-place insert-or-update (`aupsert`), matching dict
    assignment semantics.  Iteration order of the modelled dicts never affects
    any statement proved below (all statements are per-key lookups).
  * `d.get(k, default)` is modelled by an `Option` field together with `getD`.
  * A JSON field that Python tests for truthiness (`if not pid`) is modelled by
    collapsing `none` and `some 0` via `getD 0`.
  * The per-week HTTP fetch (which may fail and is then skipped) is modelled by
    a function `ℕ → Option WeekDoc`: `none` is a failed/skipped week.
  * `statistics`/`** 0.5` arithmetic on positive variance is modelled over `ℝ`
    with `Real.sqrt`.
-/

namespace Fantalytics

/-- Association-list lookup, first binding wins (Python dict access). -/
def alookup {α β : Type} [DecidableEq α] : List (α × β) → α → Option β
  | [], _ => none
  | (k, v) :: t, a => if k = a then some v else alookup t a

/-- Association-list insert-or-update preserving position (Python dict assignment). -/
def aupsert {α β : Type} [DecidableEq α] : List (α × β) → α → β → List (α × β)
  | [], a, b => [(a, b)]
  | (k, v) :: t, a, b => if k = a then (a, b) :: t else (k, v) :: aupsert t a b

/-! ## Input document shapes

Structures mirror exactly the JSON fields the Python code reads. -/

/-- One element of `player["stats"]` (source lines 164-175). -/
structure StatEntry where
  scoringPeriodId : Option ℕ
  statSourceId : Option ℕ
  appliedTotal : Option ℚ
deriving DecidableEq

/-- `playerPoolEntry["player"]` (source lines 155-175, 207-210, 329-333). -/
structure PlayerMeta where
  fullName : Option String
  defaultPositionId : Option ℤ
  proTeamId : Option ℤ
  injuryStatus : Option String
  stats : List StatEntry
deriving DecidableEq

/-- `entry["playerPoolEntry"]` (source lines 153-186, 329). -/
structure PoolEntry where
  player : Option PlayerMeta
  appliedStatTotal : Option ℚ
deriving DecidableEq

/-- One roster entry (source lines 137-186). -/
structure RosterEntry where
  playerId : Option ℤ
  playerPoolEntry : Option PoolEntry
deriving DecidableEq

/-- One team in a weekly document: `team["roster"]["entries"]` (source lines 135-137). -/
structure TeamWeek where
  entries : List RosterEntry
deriving DecidableEq

/-- One weekly document: `wdata["teams"]` (source line 135). -/
structure WeekDoc where
  teams : List TeamWeek
deriving DecidableEq

/-- The per-player record built by the reconciler (source lines 143-150). -/
structure PlayerRec where
  player_name : String
  position : String
  pro_team : ℤ
  injury_status : String
  weekly_scores : List (ℕ × ℚ)
deriving DecidableEq

/-- Placeholder record on first sighting (source lines 143-150). -/
def freshPlayerRec : PlayerRec :=
  { player_name := "Unknown", position := "Unknown", pro_team := 0
    injury_status := "ACTIVE", weekly_scores := [] }

/-- Record injected for drafted players never seen on a roster (source lines 191-199). -/
def dnpPlayerRec : PlayerRec :=
  { player_name := "Unknown", position := "Unknown", pro_team := 0
    injury_status := "DNP", weekly_scores := [] }

abbrev PlayerMap := List (ℤ × PlayerRec)

/-- `get_position_from_player` (source lines 206-210). -/
def position_map : List (ℤ × String) :=
  [(1, "QB"), (2, "RB"), (3, "WR"), (4, "TE"), (5, "K"), (16, "D/ST")]

def get_position_from_player (p : PlayerMeta) : String :=
  (alookup position_map (p.defaultPositionId.getD 0)).getD "FLEX"

/-- Scan `player["stats"]` for the first entry with `scoringPeriodId == week` and
`statSourceId == 0`; yield its `appliedTotal` (default `0.0`).  Mirrors the
`for stat_entry in stats ... break` loop, source lines 164-175. -/
def findWeekStat : List StatEntry → ℕ → Option ℚ
  | [], _ => none
  | se :: rest, week =>
    if se.scoringPeriodId = some week ∧ se.statSourceId = some 0 then
      some (se.appliedTotal.getD 0)
    else findWeekStat rest week

/-- Process one roster entry of one weekly document, source lines 137-186.
Order of operations as in the source: skip falsy player ids; initialize on
first sighting; when `playerPoolEntry.player` is present overwrite the identity
fields and, when a matching real-stat line exists, overwrite the week's score;
otherwise fall back to the entry-level `appliedStatTotal`, which fills the week
only when it is still missing and the value is positive. -/
def processEntry (week : ℕ) (st : PlayerMap) (e : RosterEntry) : PlayerMap :=
  let pid := e.playerId.getD 0
  if pid = 0 then st
  else
    let rec0 := (alookup st pid).getD freshPlayerRec
    match e.playerPoolEntry with
    | none => aupsert st pid rec0
    | some ppe =>
      let rec1 :=
        match ppe.player with
        | none => rec0
        | some p =>
          { player_name := p.fullName.getD "Unknown"
            position := get_position_from_player p
            pro_team := p.proTeamId.getD 0
            injury_status := p.injuryStatus.getD "ACTIVE"
            weekly_scores :=
              match findWeekStat p.stats week with
              | some pts => aupsert rec0.weekly_scores week pts
              | none => rec0.weekly_scores }
      let rec2 :=
        if (alookup rec1.weekly_scores week).isSome then rec1
        else
          let applied := ppe.appliedStatTotal.getD 0
          if 0 < applied then
            { rec1 with weekly_scores := aupsert rec1.weekly_scores week applied }
          else rec1
      aupsert st pid rec2

/-- All roster entries of one team (source lines 135-137). -/
def processTeam (week : ℕ) (st : PlayerMap) (t : TeamWeek) : PlayerMap :=
  t.entries.foldl (processEntry week) st

/-- One weekly document; a failed fetch (`none`) is skipped (source lines 123-132). -/
def processWeekDoc (week : ℕ) (st : PlayerMap) : Option WeekDoc → PlayerMap
  | none => st
  | some d => d.teams.foldl (processTeam week) st

/-- `_matchup_period_count`: the regular season is fixed at 14 weeks (source lines 99-101). -/
def max_week : ℕ := 14

/-- `_player_weeks_from_schedule` (source lines 103-201): fold weeks 1..14 over
the weekly documents, then inject a DNP placeholder for every drafted player id
that never appeared on any roster. -/
def player_weeks_from_schedule (weekDocs : ℕ → Option WeekDoc) (drafted : List ℤ) :
    PlayerMap :=
  let st := (List.range max_week).foldl
    (fun st i => processWeekDoc (i + 1) st (weekDocs (i + 1))) []
  drafted.foldl
    (fun st pid => if (alookup st pid).isSome then st else aupsert st pid dnpPlayerRec) st

/-! ## Player Statistics Deriver (source lines 246-303) -/

/-- Two-decimal rounding, modelling Python `round(x, 2)` on the rational
abstraction of floats.  (Ties are rounded up here while IEEE rounds the binary
mantissa to even; no statement below evaluates `round2` at a tie.) -/
def round2 (q : ℚ) : ℚ := ((⌊q * 100 + 1/2⌋ : ℤ) : ℚ) / 100

/-- `complete_weeks`: fill every week 1..14 with the recorded score or `0.0`
(source lines 268-271), listed in week order as `complete_weeks.values()`. -/
def completeWeeks (weeks : List (ℕ × ℚ)) : List ℚ :=
  (List.range max_week).map (fun i => (alookup weeks (i + 1)).getD 0)

/-- `wk_list`: the per-week dicts stored on the record, scores rounded to two
decimals (source line 274). -/
def wkList (weeks : List (ℕ × ℚ)) : List (ℕ × ℚ) :=
  (List.range max_week).map (fun i => (i + 1, round2 ((alookup weeks (i + 1)).getD 0)))

/-- Python `max(scores)` (callers guard non-emptiness; `[]` is unreachable there). -/
def pymax : List ℚ → ℚ
  | [] => 0
  | h :: t => t.foldl max h

/-- Python `min([s for s in scores if s > 0], default=0)` (source line 298). -/
def pyminPos (l : List ℚ) : ℚ :=
  match l.filter (fun s => decide (0 < s)) with
  | [] => 0
  | h :: t => t.foldl min h

/-- Boom thresholds by position (source line 291). -/
def boom_thresholds : List (String × ℚ) :=
  [("QB", 25), ("RB", 20), ("WR", 20), ("TE", 15), ("K", 12), ("D/ST", 15)]

/-- Bust thresholds by position (source line 292). -/
def bust_thresholds : List (String × ℚ) :=
  [("QB", 10), ("RB", 5), ("WR", 5), ("TE", 3), ("K", 3), ("D/ST", 2)]

def boom_thr (pos : String) : ℚ := (alookup boom_thresholds pos).getD 15

def bust_thr (pos : String) : ℚ := (alookup bust_thresholds pos).getD 5

/-- The positive scoring weeks a player's consistency is computed over. -/
def positiveScores (scores : List ℚ) : List ℚ :=
  scores.filter (fun s => decide (0 < s))

/-- The local `avg` of source line 284: mean of the positive scores. -/
noncomputable def posMean (scores : List ℚ) : ℝ :=
  ((positiveScores scores).map (fun s : ℚ => (Rat.cast s : ℝ))).sum
    / ((positiveScores scores).length : ℝ)

/-- The local `var` of source line 286: sum of squared deviations from the mean
divided by `n - 1` (Bessel's correction). -/
noncomputable def posSampleVar (scores : List ℚ) : ℝ :=
  (((positiveScores scores).map (fun s : ℚ => (Rat.cast s : ℝ))).map
      (fun s => (s - posMean scores) ^ 2)).sum
    / (((positiveScores scores).length - 1 : ℕ) : ℝ)

/-- `consistency_score` (source lines 281-288): over the positive scores, when
there are at least two of them and their mean is positive,
`max(0, 100 - (sample_std / mean) * 100)` where `sample_std = var ** 0.5`;
otherwise the field keeps its initial `0`. -/
noncomputable def consistencyScore (scores : List ℚ) : ℝ :=
  if 1 < (positiveScores scores).length then
    if 0 < posMean scores then
      max 0 (100 - Real.sqrt (posSampleVar scores) / posMean scores * 100)
    else 0
  else 0

/-- The fields `extract_draft_data_with_stats` derives per player
(source lines 251-301). -/
structure PlayerInfo where
  player_name : String
  position : String
  pro_team : ℤ
  injury_status : String
  season_points : ℚ
  games_played : ℕ
  weekly_scores : List (ℕ × ℚ)
  consistency_score : ℝ
  non_scoring_games : ℤ
  boom_games : ℕ
  bust_games : ℕ
  best_week : ℚ
  worst_week : ℚ
  playoff_points : ℚ

/-- The per-player stats derivation, source lines 248-303. -/
noncomputable def derivePlayerInfo (pdata : PlayerRec) : PlayerInfo :=
  let scores := completeWeeks pdata.weekly_scores
  let gp := scores.countP (fun s => decide (0 < s))
  { player_name := pdata.player_name
    position := pdata.position
    pro_team := pdata.pro_team
    injury_status := pdata.injury_status
    season_points := round2 scores.sum
    games_played := gp
    weekly_scores := wkList pdata.weekly_scores
    consistency_score := consistencyScore scores
    non_scoring_games := 14 - (gp : ℤ)
    boom_games := scores.countP (fun s => decide (boom_thr pdata.position ≤ s))
    bust_games := scores.countP (fun s => decide (0 < s ∧ s ≤ bust_thr pdata.position))
    best_week := if scores.isEmpty then 0 else pymax scores
    worst_week := if scores.isEmpty then 0 else pyminPos scores
    playoff_points := 0 }

/-- `player_stats` map (source lines 246-303). -/
noncomputable def buildPlayerStats (pmap : PlayerMap) : List (ℤ × PlayerInfo) :=
  pmap.map (fun kv => (kv.1, derivePlayerInfo kv.2))

/-! ## Draft Pick Enricher (source lines 305-354) -/

/-- An entry of the `teams` directory built at source lines 227-243; the
directory itself is an input of the model (its construction reads no field a
claim mentions). -/
structure TeamInfo where
  name : String
  team_abbrev : String
  owner_name : String
deriving DecidableEq

/-- A raw draft pick as read from `draftDetail["picks"]` (source lines 309-322). -/
structure RawPick where
  playerId : Option ℤ
  roundId : Option ℤ
  roundPickNumber : Option ℤ
  overallPickNumber : Option ℤ
  teamId : Option ℤ
  keeper : Option Bool
  bidAmount : Option ℤ
  playerPoolEntry : Option PoolEntry
deriving DecidableEq

/-- An enriched draft pick: the dict built at source lines 311-352.  A Lean
structure carries every field, mirroring that both branches of the source fill
every stat key (none is left absent). -/
structure EnrichedPick where
  year : ℤ
  round : ℤ
  pick_number : ℤ
  overall_pick : ℤ
  team_id : ℤ
  team_name : String
  owner_name : String
  player_id : ℤ
  keeper : Bool
  bid_amount : ℤ
  player_name : String
  position : String
  pro_team : ℤ
  injury_status : String
  season_points : ℚ
  games_played : ℕ
  weekly_scores : List (ℕ × ℚ)
  consistency_score : ℝ
  non_scoring_games : ℤ
  boom_games : ℕ
  bust_games : ℕ
  best_week : ℚ
  worst_week : ℚ
  playoff_points : ℚ

/-- `teams.get(pick.get("teamId"), \x7b\x7d).get(field, "Unknown")`
(source lines 317-318). -/
def teamField (dir : List (ℤ × TeamInfo)) (tid : Option ℤ) (f : TeamInfo → String) :
    String :=
  match tid with
  | none => "Unknown"
  | some t => ((alookup dir t).map f).getD "Unknown"

/-- The all-zero week list synthesized for a pick with no player record
(source line 344). -/
def zeroWeekList : List (ℕ × ℚ) :=
  (List.range max_week).map (fun w => (w + 1, (0 : ℚ)))

/-- Enrich one draft pick (source lines 309-352): merge the derived player
record when the pick's player id has one; otherwise take identity from the
pick's own draft-time metadata (else Unknown/Unknown/0) and synthesize zero
stats with `injury_status = "DNP"`. -/
noncomputable def enrichPick (stats : List (ℤ × PlayerInfo)) (dir : List (ℤ × TeamInfo))
    (year : ℤ) (pk : RawPick) : EnrichedPick :=
  let pid := pk.playerId.getD 0
  match alookup stats pid with
  | some info =>
    { year := year
      round := pk.roundId.getD 0
      pick_number := pk.roundPickNumber.getD 0
      overall_pick := pk.overallPickNumber.getD 0
      team_id := pk.teamId.getD 0
      team_name := teamField dir pk.teamId (fun t => t.name)
      owner_name := teamField dir pk.teamId (fun t => t.owner_name)
      player_id := pid
      keeper := pk.keeper.getD false
      bid_amount := pk.bidAmount.getD 0
      player_name := info.player_name
      position := info.position
      pro_team := info.pro_team
      injury_status := info.injury_status
      season_points := info.season_points
      games_played := info.games_played
      weekly_scores := info.weekly_scores
      consistency_score := info.consistency_score
      non_scoring_games := info.non_scoring_games
      boom_games := info.boom_games
      bust_games := info.bust_games
      best_week := info.best_week
      worst_week := info.worst_week
      playoff_points := info.playoff_points }
  | none =>
    let idTriple : String × String × ℤ :=
      match pk.playerPoolEntry with
      | some ppe =>
        match ppe.player with
        | some p => (p.fullName.getD "Unknown", get_position_from_player p, p.proTeamId.getD 0)
        | none => ("Unknown", "Unknown", 0)
      | none => ("Unknown", "Unknown", 0)
    { year := year
      round := pk.roundId.getD 0
      pick_number := pk.roundPickNumber.getD 0
      overall_pick := pk.overallPickNumber.getD 0
      team_id := pk.teamId.getD 0
      team_name := teamField dir pk.teamId (fun t => t.name)
      owner_name := teamField dir pk.teamId (fun t => t.owner_name)
      player_id := pid
      keeper := pk.keeper.getD false
      bid_amount := pk.bidAmount.getD 0
      player_name := idTriple.1
      position := idTriple.2.1
      pro_team := idTriple.2.2
      injury_status := "DNP"
      season_points := 0
      games_played := 0
      weekly_scores := zeroWeekList
      consistency_score := 0
      non_scoring_games := 14
      boom_games := 0
      bust_games := 0
      best_week := 0
      worst_week := 0
      playoff_points := 0 }

/-- The drafted-player id set collected at source lines 115-119 (truthy ids only). -/
def draftedIds (picks : List RawPick) : List ℤ :=
  picks.filterMap (fun pk =>
    match pk.playerId with
    | some v => if v = 0 then none else some v
    | none => none)

/-- `extract_draft_data_with_stats` (source lines 212-354), restricted to the
enriched pick list it produces: reconcile weekly scores, derive per-player
stats, then enrich every raw pick. -/
noncomputable def extract_draft_data_with_stats (weekDocs : ℕ → Option WeekDoc)
    (dir : List (ℤ × TeamInfo)) (picks : List RawPick) (year : ℤ) :
    List EnrichedPick :=
  let pmap := player_weeks_from_schedule weekDocs (draftedIds picks)
  let stats := buildPlayerStats pmap
  picks.map (enrichPick stats dir year)

/-! ## Cross-Season Metrics Aggregator (`calculate_draft_metrics`, source lines 449-505) -/

/-- The per-owner accumulator created by the `defaultdict` factory
(source lines 451-463); `best_pick`/`worst_pick` keys appear only once first
assigned (source lines 495, 499), hence `Option`. -/
structure OwnerMetrics where
  total_picks : ℕ
  total_value : ℚ
  boom_players : ℕ
  bust_players : ℕ
  injured_players : ℕ
  consistency_avg : ℝ
  playoff_performers : ℕ
  best_pick_value : ℚ
  worst_pick_value : ℚ
  best_pick : Option EnrichedPick
  worst_pick : Option EnrichedPick

def defaultOwnerMetrics : OwnerMetrics :=
  { total_picks := 0, total_value := 0, boom_players := 0, bust_players := 0
    injured_players := 0, consistency_avg := 0, playoff_performers := 0
    best_pick_value := 0, worst_pick_value := 0, best_pick := none, worst_pick := none }

abbrev OwnerMap := List (String × OwnerMetrics)

/-- `draft_capital = 193 - pick.get("overall_pick", 192)` (source line 474); an
enriched pick always carries `overall_pick`, so the 192 default is never read. -/
def draft_capital (pk : EnrichedPick) : ℤ := 193 - pk.overall_pick

/-- `pick_value = season_points / draft_capital if draft_capital > 0 else 0.0`
(source line 476). -/
def pick_value (pk : EnrichedPick) : ℚ :=
  if 0 < draft_capital pk then pk.season_points / (draft_capital pk : ℚ) else 0

/-- One iteration of the pick loop of `calculate_draft_metrics`
(source lines 469-503), restricted to the `by_owner` map. -/
noncomputable def processPick (m : OwnerMap) (pk : EnrichedPick) : OwnerMap :=
  let owner := pk.owner_name
  let o0 := (alookup m owner).getD defaultOwnerMetrics
  let pv := pick_value pk
  let n := o0.total_picks + 1
  let o1 : OwnerMetrics :=
    { o0 with
      total_picks := n
      total_value := o0.total_value + pv
      boom_players := o0.boom_players + (if 3 < pk.boom_games then 1 else 0)
      bust_players := o0.bust_players + (if 5 < pk.bust_games then 1 else 0)
      injured_players := o0.injured_players + (if 4 < pk.non_scoring_games then 1 else 0)
      playoff_performers :=
        o0.playoff_performers + (if 30 < pk.playoff_points then 1 else 0) }
  let o2 :=
    if 0 < pk.consistency_score then
      { o1 with
        consistency_avg :=
          if 0 < n then
            (o1.consistency_avg * ((n - 1 : ℕ) : ℝ) + pk.consistency_score) / (n : ℝ)
          else pk.consistency_score }
    else o1
  let o3 :=
    if o2.best_pick_value < pv then
      { o2 with best_pick_value := pv, best_pick := some pk }
    else o2
  let o4 :=
    if o3.worst_pick_value = 0 ∨ pv < o3.worst_pick_value then
      { o3 with worst_pick_value := pv, worst_pick := some pk }
    else o3
  aupsert m owner o4

/-- `calculate_draft_metrics` folded over the year-keyed draft data
(source lines 468-503), restricted to the `by_owner` map (the
`by_position`/`by_round` groupings read and write no owner metric). -/
noncomputable def calculate_draft_metrics (draft_data : List (ℤ × List EnrichedPick)) :
    OwnerMap :=
  draft_data.foldl (fun m yd => yd.2.foldl processPick m) []

/-! ## Concrete inputs used in counterexamples, scenarios and witnesses -/

/-- A real-stat line (`statSourceId = 0`) for a given week and point total. -/
def statLine (w : ℕ) (pts : ℚ) : StatEntry :=
  { scoringPeriodId := some w, statSourceId := some 0, appliedTotal := some pts }

/-- A roster entry for player `pid` carrying a real-stat line for week `w`. -/
def entryWithStat (pid : ℤ) (w : ℕ) (pts : ℚ) : RosterEntry :=
  { playerId := some pid
    playerPoolEntry := some
      { player := some
          { fullName := some "Dup Player", defaultPositionId := some 2
            proTeamId := some 7, injuryStatus := some "ACTIVE"
            stats := [statLine w pts] }
        appliedStatTotal := none } }

/-- Week-1 document with two roster entries for player 42: score 15 first, 12 second. -/
def dupDocHiLo : WeekDoc := ⟨[⟨[entryWithStat 42 1 15, entryWithStat 42 1 12]⟩]⟩

/-- Week-1 document with two roster entries for player 42: score 12 first, 15 second. -/
def dupDocLoHi : WeekDoc := ⟨[⟨[entryWithStat 42 1 12, entryWithStat 42 1 15]⟩]⟩

def weekDocsHiLo : ℕ → Option WeekDoc := fun w => if w = 1 then some dupDocHiLo else none

def weekDocsLoHi : ℕ → Option WeekDoc := fun w => if w = 1 then some dupDocLoHi else none

/-- Every weekly fetch absent: the player pool is built from the draft alone. -/
def weekDocsNone : ℕ → Option WeekDoc := fun _ => none

/-- A reconciled record whose raw weekly scores are 0.004 in weeks 1 and 2:
each rounds to 0.00 alone while their sum rounds to 0.01. -/
def pdRoundGap : PlayerRec :=
  { player_name := "P", position := "RB", pro_team := 0, injury_status := "ACTIVE"
    weekly_scores := [(1, 1/250), (2, 1/250)] }

/-- A reconciled record scoring only in week 3 (zeros both before and after it). -/
def pdWeekThree : PlayerRec :=
  { player_name := "P", position := "RB", pro_team := 0, injury_status := "ACTIVE"
    weekly_scores := [(3, 10)] }

/-- A reconciled record with positive scores 10 and 20 (used as witness input). -/
def pdTwoGames : PlayerRec :=
  { player_name := "P", position := "RB", pro_team := 0, injury_status := "ACTIVE"
    weekly_scores := [(1, 10), (2, 20)] }

/-- Draft-time player metadata naming the picked player. -/
def draftMetaDoe : PlayerMeta :=
  { fullName := some "John Doe", defaultPositionId := some 2, proTeamId := some 7
    injuryStatus := none, stats := [] }

/-- A draft pick of player 42 carrying full draft-time metadata. -/
def pickDoe : RawPick :=
  { playerId := some 42, roundId := some 1, roundPickNumber := some 1
    overallPickNumber := some 1, teamId := none, keeper := none, bidAmount := none
    playerPoolEntry := some { player := some draftMetaDoe, appliedStatTotal := none } }

/-- A draft pick with no player id at all. -/
def pickNoId : RawPick :=
  { playerId := none, roundId := some 2, roundPickNumber := some 3
    overallPickNumber := some 13, teamId := none, keeper := none, bidAmount := none
    playerPoolEntry := none }

/-- A neutral enriched pick for aggregator scenarios (owner "A", all stats zero,
overall pick 200 so that its draft capital is non-positive). -/
def basePick : EnrichedPick :=
  { year := 2024, round := 1, pick_number := 1, overall_pick := 200, team_id := 1
    team_name := "T", owner_name := "A", player_id := 1, keeper := false
    bid_amount := 0, player_name := "P", position := "RB", pro_team := 0
    injury_status := "ACTIVE", season_points := 0, games_played := 0
    weekly_scores := [], consistency_score := 0, non_scoring_games := 0
    boom_games := 0, bust_games := 0, best_week := 0, worst_week := 0
    playoff_points := 0 }

/-- Owner A's first pick: consistency score 0. -/
def pickCons0 : EnrichedPick := { basePick with consistency_score := 0 }

/-- Owner A's second pick: consistency score 80. -/
def pickCons80 : EnrichedPick := { basePick with consistency_score := 80 }

/-- Owner A's third pick: consistency score 60. -/
def pickCons60 : EnrichedPick := { basePick with consistency_score := 60 }

/-- A pick whose overall number is exactly 193 (draft capital 0). -/
def pick193 : EnrichedPick := { basePick with overall_pick := 193 }

/-- The counter as claim C5 words it (definition follows the claim's words, for
comparison with the source's `non_scoring_games`): a week scoring exactly 0
increments the counter only when some earlier week scored positively. -/
def claimInjuryCountAux : Bool → List ℚ → ℕ
  | _, [] => 0
  | seen, s :: rest =>
    if 0 < s then claimInjuryCountAux true rest
    else (if seen ∧ s = 0 then 1 else 0) + claimInjuryCountAux seen rest

def claimInjuryCount (scores : List ℚ) : ℕ := claimInjuryCountAux false scores

/-! ## Shared lemmas -/

theorem alookup_aupsert_self {α β : Type} [DecidableEq α]
    (l : List (α × β)) (a : α) (b : β) : alookup (aupsert l a b) a = some b := by
  induction l with
  | nil => simp [alookup, aupsert]
  | cons kv t ih =>
    obtain ⟨k, v⟩ := kv
    by_cases h : k = a
    · simp [alookup, aupsert, h]
    · simp [alookup, aupsert, h, ih]

theorem alookup_aupsert_ne {α β : Type} [DecidableEq α]
    (l : List (α × β)) (a c : α) (b : β) (h : a ≠ c) :
    alookup (aupsert l a b) c = alookup l c := by
  induction l with
  | nil => simp [alookup, aupsert, h]
  | cons kv t ih =>
    obtain ⟨k, v⟩ := kv
    by_cases hk : k = a
    · subst hk
      simp [alookup, aupsert, h]
    · simp [alookup, aupsert, hk, ih]

theorem round2_eq (q : ℚ) (z : ℤ) (h1 : (z : ℚ) ≤ q * 100 + 1/2)
    (h2 : q * 100 + 1/2 < z + 1) : round2 q = (z : ℚ) / 100 := by
  unfold round2
  rw [Int.floor_eq_iff.mpr ⟨h1, h2⟩]

theorem countP_pos_add_countP_not_pos (l : List ℚ) :
    l.countP (fun s => decide (0 < s)) + l.countP (fun s => !decide (0 < s)) = l.length := by
  induction l with
  | nil => rfl
  | cons a t ih =>
    by_cases h : (0 : ℚ) < a <;> simp [List.countP_cons, h] <;> omega

/-! ## Claim C1 -/

/-- Claim C1 fails on the code: in week 1 two roster entries for player 42 carry
real-stat scores 15.0 then 12.0, and the reconciled weekly score is 12.0 — the
later entry overwrote the earlier — not the maximum 15.0 the claim requires for
either order. -/
theorem C1_counterexample :
    alookup ((alookup (player_weeks_from_schedule weekDocsHiLo []) 42).getD
        freshPlayerRec).weekly_scores 1 = some 12 ∧
    ¬ alookup ((alookup (player_weeks_from_schedule weekDocsHiLo []) 42).getD
        freshPlayerRec).weekly_scores 1 = some 15 :=
  ⟨by decide, by decide⟩

/-- Claim C1 (amended): duplicate roster entries for one player in one week do
not reconcile to the maximum score; a roster entry whose player metadata holds
a matching real-stat line overwrites any previously recorded score for that
(player, week) — the last such entry wins — while an entry without a matching
stat line leaves an already recorded score unchanged (the entry-level
`appliedStatTotal` fallback only fills missing weeks).  Concretely, duplicate
entries scoring 12.0 then 15.0 reconcile to 15.0, but 15.0 then 12.0 reconcile
to 12.0. -/
theorem C1_last_stat_entry_wins :
    (∀ (st : PlayerMap) (e : RosterEntry) (week : ℕ) (pid : ℤ) (pts : ℚ)
        (ppe : PoolEntry) (p : PlayerMeta),
      e.playerId.getD 0 = pid → pid ≠ 0 →
      e.playerPoolEntry = some ppe → ppe.player = some p →
      findWeekStat p.stats week = some pts →
      alookup ((alookup (processEntry week st e) pid).getD freshPlayerRec).weekly_scores week
        = some pts) ∧
    (∀ (st : PlayerMap) (e : RosterEntry) (week : ℕ) (pid : ℤ) (q : ℚ)
        (ppe : PoolEntry) (p : PlayerMeta),
      e.playerId.getD 0 = pid → pid ≠ 0 →
      e.playerPoolEntry = some ppe → ppe.player = some p →
      findWeekStat p.stats week = none →
      alookup ((alookup st pid).getD freshPlayerRec).weekly_scores week = some q →
      alookup ((alookup (processEntry week st e) pid).getD freshPlayerRec).weekly_scores week
        = some q) ∧
    alookup ((alookup (player_weeks_from_schedule weekDocsLoHi []) 42).getD
        freshPlayerRec).weekly_scores 1 = some 15 ∧
    alookup ((alookup (player_weeks_from_schedule weekDocsHiLo []) 42).getD
        freshPlayerRec).weekly_scores 1 = some 12 := by
  refine ⟨?_, ?_, by decide, by decide⟩
  · intro st e week pid pts ppe p hpid h0 hppe hp hstat
    simp only [processEntry, hpid, hppe, hp, hstat, if_neg h0]
    simp [alookup_aupsert_self]
  · intro st e week pid q ppe p hpid h0 hppe hp hstat hrec
    simp only [processEntry, hpid, hppe, hp, hstat, if_neg h0]
    simp [alookup_aupsert_self, hrec]

/-- Witness for `C1_last_stat_entry_wins`: the overwrite rule evaluated on a
single concrete entry. -/
theorem C1_last_stat_entry_wins_witness :
    (entryWithStat 42 1 12).playerId.getD 0 = 42 ∧ (42 : ℤ) ≠ 0 ∧
    alookup ((alookup (processEntry 1 [] (entryWithStat 42 1 12)) 42).getD
        freshPlayerRec).weekly_scores 1 = some 12 :=
  ⟨by decide, by decide,
    C1_last_stat_entry_wins.1 [] (entryWithStat 42 1 12) 1 42 12 _ _ rfl
      (by decide) rfl rfl (by decide)⟩

/-! ## Claim C2 -/

/-- Claim C2 fails on the code: with raw weekly scores 0.004 and 0.004 the
stored `season_points` is `round(0.008, 2) = 0.01`, while the `weekly_scores`
the record carries are the per-week *rounded* copies (0.0 and 0.0), whose sum
rounds to 0.0. -/
theorem C2_counterexample :
    (derivePlayerInfo pdRoundGap).season_points ≠
      round2 ((((derivePlayerInfo pdRoundGap).weekly_scores).map (fun ws => ws.2)).sum) := by
  have hL : (derivePlayerInfo pdRoundGap).season_points = 1/100 := by
    show round2 ((completeWeeks pdRoundGap.weekly_scores).sum) = 1/100
    have hcw : completeWeeks pdRoundGap.weekly_scores =
        [1/250, 1/250, 0, 0, 0, 0, 0, 0, 0, 0, 0, 0, 0, 0] := rfl
    have hsum : (completeWeeks pdRoundGap.weekly_scores).sum = 1/125 := by
      rw [hcw]; norm_num
    rw [hsum]
    have := round2_eq (1/125) 1 (by norm_num) (by norm_num)
    simpa using this
  have hr0 : round2 (1/250 : ℚ) = 0 := by
    have := round2_eq (1/250) 0 (by norm_num) (by norm_num)
    simpa using this
  have hz : round2 (0 : ℚ) = 0 := by
    have := round2_eq 0 0 (by norm_num) (by norm_num)
    simpa using this
  have hcarried : (((derivePlayerInfo pdRoundGap).weekly_scores).map (fun ws => ws.2)) =
      [round2 (1/250), round2 (1/250), round2 0, round2 0, round2 0, round2 0, round2 0,
        round2 0, round2 0, round2 0, round2 0, round2 0, round2 0, round2 0] := rfl
  have hR : round2 ((((derivePlayerInfo pdRoundGap).weekly_scores).map (fun ws => ws.2)).sum)
      = 0 := by
    rw [hcarried, hr0, hz]
    norm_num [hz]
  rw [hL, hR]
  norm_num

/-- Claim C2 (amended): `season_points` equals `round(sum(scores), 2)` of the
raw weekly scores over the evaluated range (weeks 1..14 zero-filled); the
`weekly_scores` list the record carries holds per-week rounded copies, so the
claimed equality with the carried scores holds whenever rounding each raw
weekly score is lossless. -/
theorem C2_season_points_rounds_raw_sum (pdata : PlayerRec) :
    (derivePlayerInfo pdata).season_points =
      round2 ((completeWeeks pdata.weekly_scores).sum) ∧
    ((∀ q ∈ completeWeeks pdata.weekly_scores, round2 q = q) →
      (derivePlayerInfo pdata).season_points =
        round2 ((((derivePlayerInfo pdata).weekly_scores).map (fun ws => ws.2)).sum)) := by
  constructor
  · rfl
  · intro h
    have hmap : (((derivePlayerInfo pdata).weekly_scores).map (fun ws => ws.2)) =
        completeWeeks pdata.weekly_scores := by
      show ((wkList pdata.weekly_scores).map (fun ws => ws.2)) = completeWeeks pdata.weekly_scores
      unfold wkList completeWeeks
      rw [List.map_map]
      refine List.map_congr_left ?_
      intro i hi
      exact h _ (List.mem_map.mpr ⟨i, hi, rfl⟩)
    rw [hmap]
    rfl

/-- Witness for `C2_season_points_rounds_raw_sum`: a record whose raw scores
(10 and 20) round losslessly. -/
theorem C2_season_points_rounds_raw_sum_witness :
    (∀ q ∈ completeWeeks pdTwoGames.weekly_scores, round2 q = q) ∧
    (derivePlayerInfo pdTwoGames).season_points =
      round2 ((((derivePlayerInfo pdTwoGames).weekly_scores).map (fun ws => ws.2)).sum) := by
  have h : ∀ q ∈ completeWeeks pdTwoGames.weekly_scores, round2 q = q := by
    have hcw : completeWeeks pdTwoGames.weekly_scores =
        [10, 20, 0, 0, 0, 0, 0, 0, 0, 0, 0, 0, 0, 0] := rfl
    rw [hcw]
    have h10 : round2 (10 : ℚ) = 10 := by
      have := round2_eq 10 1000 (by norm_num) (by norm_num)
      rw [this]; norm_num
    have h20 : round2 (20 : ℚ) = 20 := by
      have := round2_eq 20 2000 (by norm_num) (by norm_num)
      rw [this]; norm_num
    have h0 : round2 (0 : ℚ) = 0 := by
      have := round2_eq 0 0 (by norm_num) (by norm_num)
      simpa using this
    intro q hq
    simp only [List.mem_cons, List.not_mem_nil, or_false] at hq
    rcases hq with rfl | rfl | h' | h' | h' | h' | h' | h' | h' | h' | h' | h' | h' | h'
    · exact h10
    · exact h20
    all_goals (rw [h']; exact h0)
  exact ⟨h, (C2_season_points_rounds_raw_sum pdTwoGames).2 h⟩

/-! ## Claim C3 -/

theorem posMean_pos (scores : List ℚ) (h : positiveScores scores ≠ []) :
    0 < posMean scores := by
  unfold posMean
  apply div_pos
  · apply List.sum_pos
    · intro x hx
      obtain ⟨s, hs, rfl⟩ := List.mem_map.mp hx
      have hmem : s ∈ List.filter (fun s => decide (0 < s)) scores := hs
      have hs' : 0 < s := of_decide_eq_true (List.mem_filter.mp hmem).2
      exact_mod_cast hs'
    · simp only [ne_eq, List.map_eq_nil_iff]
      exact h
  · exact_mod_cast List.length_pos.mpr h

/-- Claim C3: with at least two positive-scoring weeks the mean of the positive
scores is positive, `consistency_score` equals
`max(0, 100 - (sample_std / mean) * 100)` with Bessel-corrected sample
variance, and the value lies in [0, 100]; with fewer than two positive weeks
it is 0. -/
theorem C3_consistency_formula_and_bounds (scores : List ℚ) :
    (2 ≤ (positiveScores scores).length →
      0 < posMean scores ∧
      consistencyScore scores =
        max 0 (100 - Real.sqrt (posSampleVar scores) / posMean scores * 100) ∧
      0 ≤ consistencyScore scores ∧ consistencyScore scores ≤ 100) ∧
    ((positiveScores scores).length < 2 → consistencyScore scores = 0) := by
  constructor
  · intro h2
    have hne : positiveScores scores ≠ [] := by
      intro hnil
      rw [hnil] at h2
      simp at h2
    have hmean := posMean_pos scores hne
    have h1 : 1 < (positiveScores scores).length := h2
    have hval : consistencyScore scores =
        max 0 (100 - Real.sqrt (posSampleVar scores) / posMean scores * 100) := by
      unfold consistencyScore
      rw [if_pos h1, if_pos hmean]
    refine ⟨hmean, hval, ?_, ?_⟩
    · rw [hval]
      exact le_max_left _ _
    · rw [hval]
      apply max_le (by norm_num)
      have ht : 0 ≤ Real.sqrt (posSampleVar scores) / posMean scores * 100 :=
        mul_nonneg (div_nonneg (Real.sqrt_nonneg _) hmean.le) (by norm_num)
      linarith
  · intro hlt
    unfold consistencyScore
    rw [if_neg (by omega)]

/-- Witness for `C3_consistency_formula_and_bounds`: the two-positive-week
series [10, 20]. -/
theorem C3_consistency_formula_and_bounds_witness :
    2 ≤ (positiveScores [10, 20]).length ∧
    (0 < posMean [10, 20] ∧
     consistencyScore [10, 20] =
       max 0 (100 - Real.sqrt (posSampleVar [10, 20]) / posMean [10, 20] * 100) ∧
     0 ≤ consistencyScore [10, 20] ∧ consistencyScore [10, 20] ≤ 100) :=
  ⟨by decide, (C3_consistency_formula_and_bounds [10, 20]).1 (by decide)⟩

/-! ## Claim C4 -/

/-- Claim C4: `boom_games` counts weeks scoring at least the position's boom
threshold, `bust_games` counts weeks with `0 < s ≤ bust threshold` (zero-score
weeks are never busts); the thresholds are QB 25/10, RB 20/5, WR 20/5, TE 15/3,
K 12/3, D/ST 15/2, and any unmapped position falls back to 15/5. -/
theorem C4_boom_bust_thresholds (pdata : PlayerRec) :
    ((derivePlayerInfo pdata).boom_games =
        (completeWeeks pdata.weekly_scores).countP
          (fun s => decide (boom_thr pdata.position ≤ s)) ∧
      (derivePlayerInfo pdata).bust_games =
        (completeWeeks pdata.weekly_scores).countP
          (fun s => decide (0 < s ∧ s ≤ bust_thr pdata.position))) ∧
    (boom_thr "QB" = 25 ∧ bust_thr "QB" = 10 ∧ boom_thr "RB" = 20 ∧ bust_thr "RB" = 5 ∧
      boom_thr "WR" = 20 ∧ bust_thr "WR" = 5 ∧ boom_thr "TE" = 15 ∧ bust_thr "TE" = 3 ∧
      boom_thr "K" = 12 ∧ bust_thr "K" = 3 ∧ boom_thr "D/ST" = 15 ∧ bust_thr "D/ST" = 2) ∧
    (∀ pos : String, pos ∉ ["QB", "RB", "WR", "TE", "K", "D/ST"] →
      boom_thr pos = 15 ∧ bust_thr pos = 5) := by
  refine ⟨⟨rfl, rfl⟩, ⟨rfl, rfl, rfl, rfl, rfl, rfl, rfl, rfl, rfl, rfl, rfl, rfl⟩, ?_⟩
  intro pos h
  simp only [List.mem_cons, List.not_mem_nil, or_false, not_or] at h
  obtain ⟨h1, h2, h3, h4, h5, h6⟩ := h
  constructor
  · simp only [boom_thr, boom_thresholds, alookup]
    rw [if_neg (fun e => h1 e.symm), if_neg (fun e => h2 e.symm),
      if_neg (fun e => h3 e.symm), if_neg (fun e => h4 e.symm),
      if_neg (fun e => h5 e.symm), if_neg (fun e => h6 e.symm)]
    rfl
  · simp only [bust_thr, bust_thresholds, alookup]
    rw [if_neg (fun e => h1 e.symm), if_neg (fun e => h2 e.symm),
      if_neg (fun e => h3 e.symm), if_neg (fun e => h4 e.symm),
      if_neg (fun e => h5 e.symm), if_neg (fun e => h6 e.symm)]
    rfl

/-- Witness for `C4_boom_bust_thresholds`: the unmapped position "FLEX" takes
the 15/5 fallback. -/
theorem C4_boom_bust_thresholds_witness :
    ("FLEX" : String) ∉ ["QB", "RB", "WR", "TE", "K", "D/ST"] ∧
    boom_thr "FLEX" = 15 ∧ bust_thr "FLEX" = 5 :=
  ⟨by decide, (C4_boom_bust_thresholds pdTwoGames).2.2 "FLEX" (by decide)⟩

/-! ## Claim C5 -/

/-- Claim C5 fails on the code: a record scoring only in week 3 (so eleven
zero-score weeks occur after its first positive week) gets
`non_scoring_games = 13` — every scoreless week counts, including the two
weeks before the first positive one — while the claimed counter, incrementing
only after a positive week, would be 11. -/
theorem C5_counterexample :
    (derivePlayerInfo pdWeekThree).non_scoring_games = 13 ∧
    (claimInjuryCount (completeWeeks pdWeekThree.weekly_scores) : ℤ) = 11 ∧
    (13 : ℤ) ≠ 11 :=
  ⟨by decide, by decide, by decide⟩

/-- Claim C5 (amended): the derived non-participation counter is
`14 - games_played`: it counts every week of the 14-week range whose score is
not positive, regardless of whether a positive-scoring week precedes it (a
player who never scores gets 14). -/
theorem C5_non_scoring_counts_every_scoreless_week (pdata : PlayerRec) :
    (derivePlayerInfo pdata).non_scoring_games =
      14 - ((completeWeeks pdata.weekly_scores).countP (fun s => decide (0 < s)) : ℤ) ∧
    (derivePlayerInfo pdata).non_scoring_games =
      ((completeWeeks pdata.weekly_scores).countP (fun s => !decide (0 < s)) : ℤ) := by
  refine ⟨rfl, ?_⟩
  have hlen : (completeWeeks pdata.weekly_scores).length = 14 := by
    simp [completeWeeks, max_week]
  have hsplit := countP_pos_add_countP_not_pos (completeWeeks pdata.weekly_scores)
  rw [hlen] at hsplit
  show (14 : ℤ) - ((completeWeeks pdata.weekly_scores).countP (fun s => decide (0 < s)) : ℤ)
      = ((completeWeeks pdata.weekly_scores).countP (fun s => !decide (0 < s)) : ℤ)
  omega

/-! ## Claim C6 -/

/-- Claim C6: a draft pick whose player id has no derived record is enriched
with the full synthesized zero-stat record: injury status "DNP", zero season
points and games, non-participation count 14, a zero score entry for every
week 1..14, and every other derived numeric field zero (the enriched-pick
structure carries every stat field, so none is absent). -/
theorem C6_fallback_zero_record (stats : List (ℤ × PlayerInfo))
    (dir : List (ℤ × TeamInfo)) (year : ℤ) (pk : RawPick)
    (h : alookup stats (pk.playerId.getD 0) = none) :
    (enrichPick stats dir year pk).injury_status = "DNP" ∧
    (enrichPick stats dir year pk).season_points = 0 ∧
    (enrichPick stats dir year pk).games_played = 0 ∧
    (enrichPick stats dir year pk).non_scoring_games = 14 ∧
    (enrichPick stats dir year pk).weekly_scores = zeroWeekList ∧
    (∀ w ∈ List.range max_week,
      alookup (enrichPick stats dir year pk).weekly_scores (w + 1) = some 0) ∧
    (enrichPick stats dir year pk).consistency_score = 0 ∧
    (enrichPick stats dir year pk).boom_games = 0 ∧
    (enrichPick stats dir year pk).bust_games = 0 ∧
    (enrichPick stats dir year pk).best_week = 0 ∧
    (enrichPick stats dir year pk).worst_week = 0 ∧
    (enrichPick stats dir year pk).playoff_points = 0 := by
  simp only [enrichPick]
  rw [h]
  refine ⟨rfl, rfl, rfl, rfl, rfl, ?_, rfl, rfl, rfl, rfl, rfl, rfl⟩
  show ∀ w ∈ List.range max_week, alookup zeroWeekList (w + 1) = some 0
  decide

/-- Witness for `C6_fallback_zero_record`: a pick without a player id against
an empty stats map. -/
theorem C6_fallback_zero_record_witness :
    alookup ([] : List (ℤ × PlayerInfo)) (pickNoId.playerId.getD 0) = none ∧
    (enrichPick [] [] 2024 pickNoId).injury_status = "DNP" ∧
    (enrichPick [] [] 2024 pickNoId).season_points = 0 ∧
    (enrichPick [] [] 2024 pickNoId).games_played = 0 ∧
    (enrichPick [] [] 2024 pickNoId).non_scoring_games = 14 ∧
    (enrichPick [] [] 2024 pickNoId).weekly_scores = zeroWeekList ∧
    (∀ w ∈ List.range max_week,
      alookup (enrichPick [] [] 2024 pickNoId).weekly_scores (w + 1) = some 0) ∧
    (enrichPick [] [] 2024 pickNoId).consistency_score = 0 ∧
    (enrichPick [] [] 2024 pickNoId).boom_games = 0 ∧
    (enrichPick [] [] 2024 pickNoId).bust_games = 0 ∧
    (enrichPick [] [] 2024 pickNoId).best_week = 0 ∧
    (enrichPick [] [] 2024 pickNoId).worst_week = 0 ∧
    (enrichPick [] [] 2024 pickNoId).playoff_points = 0 :=
  ⟨rfl, C6_fallback_zero_record [] [] 2024 pickNoId rfl⟩

/-! ## Claim C7 -/

/-- Claim C7 is the intent but the code loses the draft-time identity: player
42 is drafted with embedded metadata naming "John Doe" and appears in no
weekly document, yet the enriched pick carries "Unknown"/"Unknown"/0 — the
drafted-player injection (source lines 190-199) puts an "Unknown" placeholder
into the stats map, so the draft-metadata branch (source lines 328-337, whose
comment says "Player never played - get name from draft") is never reached for
a pick with a valid player id. -/
theorem C7_code_bug_draft_identity_lost :
    (extract_draft_data_with_stats weekDocsNone [] [pickDoe] 2024).map
        (fun e => (e.player_name, e.position, e.pro_team, e.injury_status)) =
      [("Unknown", "Unknown", 0, "DNP")] ∧
    (pickDoe.playerPoolEntry.bind (fun ppe => ppe.player)).map
        (fun p => p.fullName.getD "Unknown") = some "John Doe" ∧
    ("Unknown" : String) ≠ "John Doe" :=
  ⟨by decide, by decide, by decide⟩

/-! ## Claim C8 -/

/-- Claim C8: `draft_capital = 193 - overall_pick`; `pick_value` is
`season_points / draft_capital` only when the capital is positive and 0 when
it is ≤ 0, so any pick with overall number ≥ 193 gets value 0 and the division
is never taken at a zero or negative divisor. -/
theorem C8_draft_capital_guard (pk : EnrichedPick) :
    draft_capital pk = 193 - pk.overall_pick ∧
    (0 < draft_capital pk → pick_value pk = pk.season_points / (draft_capital pk : ℚ)) ∧
    (draft_capital pk ≤ 0 → pick_value pk = 0) ∧
    (193 ≤ pk.overall_pick → pick_value pk = 0) := by
  refine ⟨rfl, ?_, ?_, ?_⟩
  · intro h
    unfold pick_value
    rw [if_pos h]
  · intro h
    unfold pick_value
    rw [if_neg (not_lt.mpr h)]
  · intro h
    unfold pick_value
    rw [if_neg]
    simp only [draft_capital]
    omega

/-- Witness for `C8_draft_capital_guard`: a pick with overall number exactly
193. -/
theorem C8_draft_capital_guard_witness :
    (193 : ℤ) ≤ pick193.overall_pick ∧ pick_value pick193 = 0 :=
  ⟨by decide, (C8_draft_capital_guard pick193).2.2.2 (by decide)⟩

/-! ## Claim C9 -/

theorem processPick_owner_rule (m : OwnerMap) (pk : EnrichedPick) :
    ((alookup (processPick m pk) pk.owner_name).getD defaultOwnerMetrics).total_picks =
      ((alookup m pk.owner_name).getD defaultOwnerMetrics).total_picks + 1 ∧
    (0 < pk.consistency_score →
      ((alookup (processPick m pk) pk.owner_name).getD defaultOwnerMetrics).consistency_avg =
        (((alookup m pk.owner_name).getD defaultOwnerMetrics).consistency_avg *
            ((((alookup m pk.owner_name).getD defaultOwnerMetrics).total_picks + 1 - 1 : ℕ) : ℝ) +
          pk.consistency_score) /
          ((((alookup m pk.owner_name).getD defaultOwnerMetrics).total_picks + 1 : ℕ) : ℝ)) ∧
    (¬ 0 < pk.consistency_score →
      ((alookup (processPick m pk) pk.owner_name).getD defaultOwnerMetrics).consistency_avg =
        ((alookup m pk.owner_name).getD defaultOwnerMetrics).consistency_avg) := by
  simp only [processPick, alookup_aupsert_self, Option.getD_some]
  refine ⟨?_, ?_, ?_⟩
  · simp only [apply_ite OwnerMetrics.total_picks, ite_self]
  · intro h
    simp only [apply_ite OwnerMetrics.consistency_avg, ite_self]
    rw [if_pos h, if_pos (Nat.succ_pos _)]
  · intro h
    simp only [apply_ite OwnerMetrics.consistency_avg, ite_self]
    rw [if_neg h]

/-- Claim C9: the running consistency average updates only on picks with
positive consistency score, by `new_avg = (old_avg * (n - 1) + current) / n`
with `n` the owner's total picks including the current one (zero-consistency
picks still enlarge the denominator later); on the pick sequence with
consistency scores [0, 80, 60] for one owner the running average is 0, then
40, then (40 * 2 + 60) / 3 = 140 / 3. -/
theorem C9_consistency_running_average :
    (∀ (m : OwnerMap) (pk : EnrichedPick),
      (0 < pk.consistency_score →
        ((alookup (processPick m pk) pk.owner_name).getD defaultOwnerMetrics).consistency_avg =
          (((alookup m pk.owner_name).getD defaultOwnerMetrics).consistency_avg *
              ((((alookup m pk.owner_name).getD defaultOwnerMetrics).total_picks + 1 - 1 : ℕ) : ℝ) +
            pk.consistency_score) /
            ((((alookup m pk.owner_name).getD defaultOwnerMetrics).total_picks + 1 : ℕ) : ℝ)) ∧
      (¬ 0 < pk.consistency_score →
        ((alookup (processPick m pk) pk.owner_name).getD defaultOwnerMetrics).consistency_avg =
          ((alookup m pk.owner_name).getD defaultOwnerMetrics).consistency_avg)) ∧
    ((alookup (processPick [] pickCons0) "A").getD defaultOwnerMetrics).consistency_avg = 0 ∧
    ((alookup (processPick (processPick [] pickCons0) pickCons80) "A").getD
        defaultOwnerMetrics).consistency_avg = 40 ∧
    ((alookup (processPick (processPick (processPick [] pickCons0) pickCons80) pickCons60)
        "A").getD defaultOwnerMetrics).consistency_avg = 140 / 3 := by
  have hrule := processPick_owner_rule
  have ho0 : pickCons0.owner_name = "A" := rfl
  have ho80 : pickCons80.owner_name = "A" := rfl
  have ho60 : pickCons60.owner_name = "A" := rfl
  have htp1 : ((alookup (processPick [] pickCons0) "A").getD
      defaultOwnerMetrics).total_picks = 1 := by
    have h := (hrule [] pickCons0).1
    rw [ho0] at h
    rw [h]
    rfl
  have havg1 : ((alookup (processPick [] pickCons0) "A").getD
      defaultOwnerMetrics).consistency_avg = 0 := by
    have h := (hrule [] pickCons0).2.2 ((by norm_num : ¬ (0:ℝ) < 0))
    rw [ho0] at h
    rw [h]
    rfl
  have htp2 : ((alookup (processPick (processPick [] pickCons0) pickCons80) "A").getD
      defaultOwnerMetrics).total_picks = 2 := by
    have h := (hrule (processPick [] pickCons0) pickCons80).1
    rw [ho80] at h
    rw [h, htp1]
  have havg2 : ((alookup (processPick (processPick [] pickCons0) pickCons80) "A").getD
      defaultOwnerMetrics).consistency_avg = 40 := by
    have h := (hrule (processPick [] pickCons0) pickCons80).2.1 ((by norm_num : (0:ℝ) < 80))
    rw [ho80] at h
    rw [h, htp1, havg1, show pickCons80.consistency_score = (80 : ℝ) from rfl]
    norm_num
  have havg3 : ((alookup (processPick (processPick (processPick [] pickCons0) pickCons80)
      pickCons60) "A").getD defaultOwnerMetrics).consistency_avg = 140 / 3 := by
    have h := (hrule (processPick (processPick [] pickCons0) pickCons80) pickCons60).2.1
      ((by norm_num : (0:ℝ) < 60))
    rw [ho60] at h
    rw [h, htp2, havg2, show pickCons60.consistency_score = (60 : ℝ) from rfl]
    norm_num
  exact ⟨fun m pk => ⟨(hrule m pk).2.1, (hrule m pk).2.2⟩, havg1, havg2, havg3⟩

/-- Witness for `C9_consistency_running_average`: one pick of consistency 80
joining an empty owner map. -/
theorem C9_consistency_running_average_witness :
    0 < pickCons80.consistency_score ∧
    ((alookup (processPick [] pickCons80) pickCons80.owner_name).getD
        defaultOwnerMetrics).consistency_avg =
      (((alookup ([] : OwnerMap) pickCons80.owner_name).getD
            defaultOwnerMetrics).consistency_avg *
          ((((alookup ([] : OwnerMap) pickCons80.owner_name).getD
                defaultOwnerMetrics).total_picks + 1 - 1 : ℕ) : ℝ) +
        pickCons80.consistency_score) /
        ((((alookup ([] : OwnerMap) pickCons80.owner_name).getD
              defaultOwnerMetrics).total_picks + 1 : ℕ) : ℝ) :=
  ⟨(by norm_num : (0:ℝ) < 80),
    (C9_consistency_running_average.1 [] pickCons80).1 ((by norm_num : (0:ℝ) < 80))⟩

/-! ## Claim C10 -/

theorem alookup_buildPlayerStats (pmap : PlayerMap) (pid : ℤ) :
    alookup (buildPlayerStats pmap) pid = (alookup pmap pid).map derivePlayerInfo := by
  induction pmap with
  | nil => rfl
  | cons kv t ih =>
    obtain ⟨k, v⟩ := kv
    by_cases h : k = pid
    · simp [buildPlayerStats, alookup, h]
    · simpa [buildPlayerStats, alookup, h] using ih

theorem enrichPick_playoff_points (pmap : PlayerMap) (dir : List (ℤ × TeamInfo))
    (year : ℤ) (pk : RawPick) :
    (enrichPick (buildPlayerStats pmap) dir year pk).playoff_points = 0 := by
  simp only [enrichPick, alookup_buildPlayerStats]
  cases alookup pmap (pk.playerId.getD 0) with
  | none => rfl
  | some pd => rfl

theorem processPick_playoff_performers (m : OwnerMap) (pk : EnrichedPick)
    (hpk : pk.playoff_points = 0)
    (hm : ∀ owner, ((alookup m owner).getD defaultOwnerMetrics).playoff_performers = 0) :
    ∀ owner, ((alookup (processPick m pk) owner).getD
      defaultOwnerMetrics).playoff_performers = 0 := by
  intro owner
  by_cases h : pk.owner_name = owner
  · subst h
    simp only [processPick, alookup_aupsert_self, Option.getD_some]
    simp only [apply_ite OwnerMetrics.playoff_performers, ite_self]
    have h30 : ¬ (30 : ℚ) < pk.playoff_points := by
      rw [hpk]
      norm_num
    rw [if_neg h30]
    simpa using hm pk.owner_name
  · simp only [processPick]
    rw [alookup_aupsert_ne _ _ _ _ h]
    exact hm owner

theorem foldl_processPick_playoff (picks : List EnrichedPick) (m : OwnerMap)
    (hp : ∀ pk ∈ picks, pk.playoff_points = 0)
    (hm : ∀ owner, ((alookup m owner).getD defaultOwnerMetrics).playoff_performers = 0) :
    ∀ owner, ((alookup (picks.foldl processPick m) owner).getD
      defaultOwnerMetrics).playoff_performers = 0 := by
  induction picks generalizing m with
  | nil => exact hm
  | cons pk t ih =>
    exact ih (processPick m pk) (fun q hq => hp q (List.mem_cons_of_mem _ hq))
      (processPick_playoff_performers m pk (hp pk (List.mem_cons_self _ _)) hm)

theorem foldl_years_playoff (dd : List (ℤ × List EnrichedPick)) (m : OwnerMap)
    (hp : ∀ yd ∈ dd, ∀ pk ∈ yd.2, pk.playoff_points = 0)
    (hm : ∀ owner, ((alookup m owner).getD defaultOwnerMetrics).playoff_performers = 0) :
    ∀ owner, ((alookup (dd.foldl (fun m yd => yd.2.foldl processPick m) m) owner).getD
      defaultOwnerMetrics).playoff_performers = 0 := by
  induction dd generalizing m with
  | nil => exact hm
  | cons yd t ih =>
    exact ih (yd.2.foldl processPick m) (fun q hq => hp q (List.mem_cons_of_mem _ hq))
      (foldl_processPick_playoff yd.2 m (hp yd (List.mem_cons_self _ _)) hm)

/-- Claim C10 (implicit invariant): every enriched draft pick produced by the
extraction — through the derived-record path and the no-record fallback alike —
carries `playoff_points = 0`, and consequently aggregating any draft data whose
picks all have zero playoff points leaves every owner's `playoff_performers`
counter at 0 (its `> 30` increment condition never fires). -/
theorem C10_playoff_points_always_zero :
    (∀ (weekDocs : ℕ → Option WeekDoc) (dir : List (ℤ × TeamInfo))
        (picks : List RawPick) (year : ℤ) (pk : EnrichedPick),
      pk ∈ extract_draft_data_with_stats weekDocs dir picks year →
      pk.playoff_points = 0) ∧
    (∀ draft_data : List (ℤ × List EnrichedPick),
      (∀ yd ∈ draft_data, ∀ pk ∈ yd.2, pk.playoff_points = 0) →
      ∀ owner, ((alookup (calculate_draft_metrics draft_data) owner).getD
        defaultOwnerMetrics).playoff_performers = 0) := by
  constructor
  · intro weekDocs dir picks year pk hpk
    simp only [extract_draft_data_with_stats] at hpk
    obtain ⟨pk0, hpk0, rfl⟩ := List.mem_map.mp hpk
    exact enrichPick_playoff_points _ dir year pk0
  · intro draft_data hp owner
    exact foldl_years_playoff draft_data [] hp (fun o => rfl) owner

/-- Witness for `C10_playoff_points_always_zero`: a one-pick extraction and a
one-pick aggregation. -/
theorem C10_playoff_points_always_zero_witness :
    (enrichPick (buildPlayerStats (player_weeks_from_schedule weekDocsNone
        (draftedIds [pickNoId]))) [] 2024 pickNoId).playoff_points = 0 ∧
    ((alookup (calculate_draft_metrics [(2024, [pickCons80])]) "A").getD
      defaultOwnerMetrics).playoff_performers = 0 := by
  constructor
  · exact C10_playoff_points_always_zero.1 weekDocsNone [] [pickNoId] 2024 _
      (List.mem_singleton.mpr rfl)
  · refine C10_playoff_points_always_zero.2 [(2024, [pickCons80])] ?_ "A"
    intro yd hyd pk hpk
    simp only [List.mem_singleton] at hyd
    subst hyd
    simp only [List.mem_singleton] at hpk
    subst hpk
    rfl

end Fantalytics
